import Mathlib

/-!
Shallow embedding of the nyc-summer-sublease-scraper scoring, dedup,
listing-model and date-parsing code, with theorems checking the
natural-language specification's claims against it.

Conventions of the embedding:
* Python `float` arithmetic is modelled with `ℚ`.
* Python `datetime.date` values are modelled by their proleptic-Gregorian
  ordinal (`date.toordinal`), an `ℤ`; comparison and `(a - b).days`
  coincide with `ℤ` order and subtraction.
* Python `Optional[T]` is `Option T`; `None` is `none`.
* The external `hashlib.sha256 → hexdigest[:16]` and
  `thefuzz.fuzz.token_sort_ratio` calls are opaque parameters
  (`hash : String → String`, `sim : String → String → ℤ`).
* Fallible Python code (code that can raise) returns `Except Unit`.
-/

/-! ### Calendar model (mirrors CPython `datetime.date`) -/

/-- Gregorian leap year, as `calendar.isleap` / `datetime` use it. -/
def isLeapYear (y : ℕ) : Bool := y % 4 == 0 && (y % 100 != 0 || y % 400 == 0)

/-- Number of days in month `m` of year `y` (CPython `_days_in_month`). -/
def daysInMonth (y m : ℕ) : ℕ :=
  if m = 2 then (if isLeapYear y then 29 else 28)
  else if m = 4 ∨ m = 6 ∨ m = 9 ∨ m = 11 then 30
  else 31

/-- The triple `(y, m, d)` is accepted by the Python `date(y, m, d)`
constructor (otherwise the constructor raises `ValueError`). -/
def isValidDate (y m d : ℕ) : Bool :=
  1 ≤ y && y ≤ 9999 && 1 ≤ m && m ≤ 12 && 1 ≤ d && d ≤ daysInMonth y m

/-- Days in the months strictly before month `m` of year `y`. -/
def daysBeforeMonth (y m : ℕ) : ℕ :=
  (List.range (m - 1)).foldl (fun acc k => acc + daysInMonth y (k + 1)) 0

/-- Days in the years strictly before year `y` (CPython `_days_before_year`). -/
def daysBeforeYear (y : ℕ) : ℕ :=
  365 * (y - 1) + (y - 1) / 4 - (y - 1) / 100 + (y - 1) / 400

/-- `date(y, m, d).toordinal()`: day number with `0001-01-01 = 1`. -/
def toOrdinal (y m d : ℕ) : ℤ :=
  (daysBeforeYear y + daysBeforeMonth y m + d : ℕ)

/-! ### Enums (`models/enums.py`) -/

inductive ListingSource
  | FACEBOOK | CRAIGSLIST | LEASEBREAK | SPAREROOM
  | LISTINGS_PROJECT | FURNISHED_FINDER | ROOMI
deriving DecidableEq, Repr

def ListingSource.value : ListingSource → String
  | .FACEBOOK => "Facebook"
  | .CRAIGSLIST => "Craigslist"
  | .LEASEBREAK => "LeaseBreak"
  | .SPAREROOM => "SpareRoom"
  | .LISTINGS_PROJECT => "Listings Project"
  | .FURNISHED_FINDER => "Furnished Finder"
  | .ROOMI => "Roomi"

inductive ListingType
  | STUDIO_ | ONE_BEDROOM | TWO_BEDROOM | THREE_PLUS_BEDROOM
  | ROOM_IN_SHARED | HOTEL_EXTENDED_STAY | UNKNOWN
deriving DecidableEq, Repr

def ListingType.value : ListingType → String
  | .STUDIO_ => "Studio"
  | .ONE_BEDROOM => "1BR"
  | .TWO_BEDROOM => "2BR"
  | .THREE_PLUS_BEDROOM => "3BR+"
  | .ROOM_IN_SHARED => "Room in Shared"
  | .HOTEL_EXTENDED_STAY => "Hotel/Extended Stay"
  | .UNKNOWN => "Unknown"

inductive Borough
  | MANHATTAN | BROOKLYN | QUEENS | BRONX | STATEN_ISLAND | UNKNOWN
deriving DecidableEq, Repr

def Borough.value : Borough → String
  | .MANHATTAN => "Manhattan"
  | .BROOKLYN => "Brooklyn"
  | .QUEENS => "Queens"
  | .BRONX => "Bronx"
  | .STATEN_ISLAND => "Staten Island"
  | .UNKNOWN => "Unknown"

/-! ### The listing record (`models/listing.py`).
`scraped_at` is kept as its ISO-format string (its only use in the
embedded code is `isoformat()` in the sheet row); `posted_date`
likewise. -/

structure Listing where
  id : String := ""
  source : ListingSource
  source_url : String := ""
  raw_text : String := ""
  title : String := ""
  price_monthly : Option ℤ := none
  price_raw : String := ""
  neighborhood : String := ""
  borough : Borough := .UNKNOWN
  address : String := ""
  listing_type : ListingType := .UNKNOWN
  apartment_details : String := ""
  is_furnished : Option Bool := none
  available_from : Option ℤ := none
  available_to : Option ℤ := none
  rating : ℚ := 0
  rating_breakdown : List (String × ℚ) := []
  posted_date : Option String := none
  scraped_at : String := ""
  description : String := ""
  contact_info : String := ""
  images : List String := []
deriving DecidableEq, Repr

/-! ### Settings (`config/settings.py`), restricted to the fields the
embedded code consumes. -/

structure Settings where
  max_listings_per_source : ℤ := 100
  scrape_delay_seconds : ℤ := 2
  max_budget : ℤ := 2000
  target_start_date : ℤ := toOrdinal 2026 7 1
  target_end_date_min : ℤ := toOrdinal 2026 8 31
  target_end_date_ideal : ℤ := toOrdinal 2026 9 30
deriving DecidableEq, Repr

/-! ### Scoring configuration (`config/scoring_weights.py`) -/

def LOCATION_TIERS : List (ℕ × List String) :=
  [ (1, ["Midtown East", "Murray Hill", "Turtle Bay", "Kips Bay",
         "Tudor City", "Sutton Place"]),
    (2, ["Lower East Side", "East Village", "Nolita",
         "Alphabet City", "Two Bridges"]),
    (3, ["Midtown", "Midtown West", "Hell's Kitchen", "Chelsea", "Flatiron",
         "Gramercy", "Union Square", "NoMad", "Hudson Yards",
         "West Village", "Greenwich Village", "SoHo", "NoHo", "Tribeca",
         "Financial District", "Battery Park City", "Chinatown", "Little Italy"]),
    (4, ["Upper East Side", "Yorkville", "Lenox Hill", "Carnegie Hill",
         "Upper West Side"]),
    (5, ["Williamsburg", "DUMBO", "Brooklyn Heights", "Downtown Brooklyn",
         "Fort Greene", "Clinton Hill", "Park Slope", "Cobble Hill",
         "Boerum Hill", "Carroll Gardens", "Prospect Heights",
         "Greenpoint", "Bushwick", "Bed-Stuy",
         "Long Island City", "Astoria", "Sunnyside"]) ]

/-- `LOCATION_TIER_SCORES[t]`. -/
def LOCATION_TIER_SCORES (t : ℕ) : ℚ :=
  if t = 1 then 10 else if t = 2 then 8 else if t = 3 then 6.5
  else if t = 4 then 5 else if t = 5 then 3.5 else 0

/-- `BOROUGH_FALLBACK_SCORES.get(b, 2.0)`. -/
def BOROUGH_FALLBACK_SCORES_get (b : String) : ℚ :=
  if b = "Manhattan" then 5 else if b = "Brooklyn" then 3
  else if b = "Queens" then 2.5 else if b = "Bronx" then 1.5
  else if b = "Staten Island" then 1 else if b = "Unknown" then 2 else 2

/-- `TYPE_SCORES.get(t, 3.0)`. -/
def TYPE_SCORES_get (t : String) : ℚ :=
  if t = "Studio" then 10 else if t = "1BR" then 9 else if t = "2BR" then 6
  else if t = "3BR+" then 5 else if t = "Hotel/Extended Stay" then 7
  else if t = "Room in Shared" then 4.5 else if t = "Unknown" then 3 else 3

/-- `s in TRUSTED_SOURCES`. -/
def TRUSTED_SOURCES_mem (s : String) : Bool :=
  s == "LeaseBreak" || s == "Listings Project" || s == "Furnished Finder"

/-! ### Python string helpers used throughout the embedded code -/

/-- `sub` occurs as a contiguous run somewhere in `big`. -/
def hasSubrun (sub : List Char) : List Char → Bool
  | [] => sub.isEmpty
  | c :: rest => sub.isPrefixOf (c :: rest) || hasSubrun sub rest

/-- Python `sub in big` on strings (substring test). -/
def pySubstr (sub big : String) : Bool := hasSubrun sub.toList big.toList

/-- Python `s.lower()` (ASCII model, matching the embedded inputs). -/
def pyToLower (s : String) : String := String.mk (s.toList.map Char.toLower)

/-- Python `s.upper()` (ASCII model). -/
def pyToUpper (s : String) : String := String.mk (s.toList.map Char.toUpper)

/-- Python `s.strip()`. -/
def pyTrim (s : String) : String :=
  String.mk
    (((s.toList.dropWhile Char.isWhitespace).reverse.dropWhile Char.isWhitespace).reverse)

/-- Accumulating splitter behind `pySplitWs`. -/
def splitWsAux : List Char → List Char → List String
  | [], acc => if acc.isEmpty then [] else [String.mk acc.reverse]
  | c :: rest, acc =>
    if c.isWhitespace then
      if acc.isEmpty then splitWsAux rest []
      else String.mk acc.reverse :: splitWsAux rest []
    else splitWsAux rest (c :: acc)

/-- Python `s.split()`: split on whitespace runs, dropping empty pieces. -/
def pySplitWs (s : String) : List String := splitWsAux s.toList []

/-- Python builtin `min` on two `ℚ` values (left-biased on ties). -/
def pyMin (a b : ℚ) : ℚ := if a ≤ b then a else b

/-- Python builtin `max` on two `ℚ` values (left-biased on ties). -/
def pyMax (a b : ℚ) : ℚ := if b ≤ a then a else b

/-- Python builtin `min` on two `ℤ` values. -/
def pyMinI (a b : ℤ) : ℤ := if a ≤ b then a else b

/-- Python builtin `max` on two `ℤ` values. -/
def pyMaxI (a b : ℤ) : ℤ := if b ≤ a then a else b

/-- Python builtin `abs` on an `ℤ` value. -/
def pyAbsI (x : ℤ) : ℤ := if x < 0 then -x else x

/-! ### Scoring (`scoring/rating.py`) -/

/-- `score_price`. -/
def score_price (price_monthly : Option ℤ) : ℚ :=
  match price_monthly with
  | none => 4
  | some p =>
    if p ≤ 1200 then 10
    else if p ≤ 1500 then 9
    else if p ≤ 1700 then 8
    else if p ≤ 1850 then 7
    else if p ≤ 2000 then 5 + 2 * ((2000 - p : ℤ) : ℚ) / 150
    else if p ≤ 2200 then 2
    else 0

/-- First tier whose neighborhood list contains an exact (case-insensitive)
match for the lower-cased query. -/
def tierExact (nLower : String) : List (ℕ × List String) → Option ℕ
  | [] => none
  | (t, ns) :: rest =>
    if ns.any (fun m => pyToLower m == nLower) then some t else tierExact nLower rest

/-- First tier with a fuzzy (mutual-substring, case-insensitive) match. -/
def tierFuzzy (nLower : String) : List (ℕ × List String) → Option ℕ
  | [] => none
  | (t, ns) :: rest =>
    if ns.any (fun m => pySubstr (pyToLower m) nLower || pySubstr nLower (pyToLower m))
    then some t else tierFuzzy nLower rest

/-- `score_location`. -/
def score_location (neighborhood borough : String) : ℚ :=
  if neighborhood = "" then BOROUGH_FALLBACK_SCORES_get borough
  else
    match tierExact (pyToLower neighborhood) LOCATION_TIERS with
    | some t => LOCATION_TIER_SCORES t
    | none =>
      match tierFuzzy (pyToLower neighborhood) LOCATION_TIERS with
      | some t => LOCATION_TIER_SCORES t
      | none => BOROUGH_FALLBACK_SCORES_get borough

/-- `score_type`. -/
def score_type (listing_type : String) : ℚ := TYPE_SCORES_get listing_type

/-- The `start_penalty` computed inside `score_timing`. -/
def start_penalty (start target_start : ℤ) : ℚ :=
  if target_start < start ∧ 7 < start - target_start
  then pyMin 3 (((start - target_start : ℤ) : ℚ) * 0.2)
  else 0

/-- The `end_bonus` computed inside `score_timing`; the threshold dates
`2026-09-30` and `2026-08-31` are hardcoded in the source. -/
def end_bonus (e : ℤ) : ℚ :=
  if toOrdinal 2026 9 30 ≤ e then 1
  else if toOrdinal 2026 8 31 ≤ e then 0.5
  else 0

/-- `score_timing`. -/
def score_timing (available_from available_to : Option ℤ)
    (target_start target_end : ℤ) : ℚ :=
  if available_from = none ∧ available_to = none then 5
  else
    let start := available_from.getD (toOrdinal 2026 6 1)
    let e := available_to.getD (toOrdinal 2026 12 31)
    let overlap_start := pyMaxI start target_start
    let overlap_end := pyMinI e target_end
    if overlap_end < overlap_start then 0
    else
      let target_days := target_end - target_start
      if target_days = 0 then 5
      else
        let overlap_days := overlap_end - overlap_start
        let coverage_ratio : ℚ := (overlap_days : ℚ) / (target_days : ℚ)
        let score := coverage_ratio * 8 + end_bonus e - start_penalty start target_start
        pyMax 0 (pyMin 10 score)

/-- `score_bonus`. -/
def score_bonus (l : Listing) : ℚ :=
  let s1 : ℚ := if l.is_furnished = some true then 3 else 0
  let s2 : ℚ := if l.images ≠ [] then 2 else 0
  let s3 : ℚ := if TRUSTED_SOURCES_mem l.source.value then 2 else 0
  let s4 : ℚ := if l.address ≠ "" then 1.5 else 0
  let s5 : ℚ := if l.contact_info ≠ "" then 1.5 else 0
  pyMin 10 (s1 + s2 + s3 + s4 + s5)

/-- Python `round(q, 1)` modelled over `ℚ`: round `10*q` to the nearest
integer, ties to even, divide by ten. -/
def roundHalfEven (q : ℚ) : ℤ :=
  let f := ⌊q⌋
  let r := q - (f : ℚ)
  if r < 1/2 then f
  else if 1/2 < r then f + 1
  else if 2 ∣ f then f else f + 1

def round1 (q : ℚ) : ℚ := (roundHalfEven (10 * q) : ℚ) / 10

/-- The per-dimension breakdown dict built by `compute_rating`. -/
structure Breakdown where
  price : ℚ
  location : ℚ
  type : ℚ
  timing : ℚ
  bonus : ℚ
deriving DecidableEq, Repr

/-- `compute_rating`: weighted sum of the five sub-scores in `WEIGHTS`
order, clamped to `[1, 10]`, rounded to one decimal. -/
def compute_rating (l : Listing) (s : Settings) : ℚ × Breakdown :=
  let b : Breakdown :=
    { price := score_price l.price_monthly
      location := score_location l.neighborhood l.borough.value
      type := score_type l.listing_type.value
      timing := score_timing l.available_from l.available_to
        s.target_start_date s.target_end_date_ideal
      bonus := score_bonus l }
  let composite :=
    b.price * 0.25 + b.location * 0.30 + b.type * 0.20 +
      b.timing * 0.15 + b.bonus * 0.10
  (round1 (pyMax 1 (pyMin 10 composite)), b)

/-! ### Fingerprints (`models/listing.py`, `Listing.generate_fingerprint`).
`hash` stands for `hashlib.sha256(...).hexdigest()[:16]`. -/

/-- Python `f"{price}"` for `Optional[int]`. -/
def priceRepr : Option ℤ → String
  | none => "None"
  | some n => toString n

/-- The string handed to the hash by `generate_fingerprint`. -/
def fingerprint_content (l : Listing) : String :=
  if l.source ≠ ListingSource.FACEBOOK ∧ l.source_url ≠ "" then l.source_url
  else
    let normalized_text := String.intercalate " " ((pySplitWs (pyToLower l.raw_text)).take 50)
    priceRepr l.price_monthly ++ "|" ++ pyToLower l.neighborhood ++ "|" ++
      l.listing_type.value ++ "|" ++ normalized_text

def generate_fingerprint (hash : String → String) (l : Listing) : String :=
  hash (fingerprint_content l)

/-! ### Deduplication (`dedup/deduplicator.py`).
`sim` stands for `thefuzz.fuzz.token_sort_ratio`. -/

/-- Python truthiness of an `Optional[int]` (both `None` and `0` are falsy). -/
def pyTruthyInt : Option ℤ → Bool
  | none => false
  | some n => n != 0

/-- Python `a or b` on strings (empty string is falsy). -/
def pyOrStr (a b : String) : String := if a ≠ "" then a else b

/-- `_are_likely_duplicates`, with the external fuzzy scorer as parameter. -/
def are_likely_duplicates (sim : String → String → ℤ) (a b : Listing) : Bool :=
  -- Same price (within $50): truthy-and branch, else `!=` comparison
  if (if pyTruthyInt a.price_monthly && pyTruthyInt b.price_monthly then
        50 < pyAbsI (a.price_monthly.getD 0 - b.price_monthly.getD 0)
      else a.price_monthly ≠ b.price_monthly) then false
  -- Same neighborhood (case-insensitive, only when both non-empty)
  else if a.neighborhood ≠ "" ∧ b.neighborhood ≠ "" ∧
      pyToLower a.neighborhood ≠ pyToLower b.neighborhood then false
  -- Same type
  else if a.listing_type ≠ b.listing_type then false
  else
    -- Text similarity check
    let text_a := (pyOrStr a.description a.raw_text).take 200
    let text_b := (pyOrStr b.description b.raw_text).take 200
    if text_a ≠ "" ∧ text_b ≠ "" then 70 < sim text_a text_b
    else false

/-- `_is_fuzzy_duplicate`. -/
def is_fuzzy_duplicate (sim : String → String → ℤ)
    (candidate : Listing) (existing : List Listing) : Bool :=
  existing.any (fun other => are_likely_duplicates sim candidate other)

/-- The mutable state of a `Deduplicator` instance. -/
structure DedupState where
  seen_fingerprints : List String
deriving DecidableEq, Repr

/-- `fp = listing.id or listing.generate_fingerprint()`. -/
def effFp (hash : String → String) (l : Listing) : String :=
  if l.id = "" then generate_fingerprint hash l else l.id

/-- The loop body of `Deduplicator.deduplicate`, threading the instance
state, the call-local `batch_fingerprints`, and `new_listings`, and
returning the (`listing.id`-mutated) traversed batch alongside. The
source's three `continue` guards (seen set, batch set, fuzzy duplicate)
skip identically, so they appear as one disjunction. -/
def dedupGo (hash : String → String) (sim : String → String → ℤ) :
    List Listing → DedupState × List String × List Listing →
    (DedupState × List String × List Listing) × List Listing
  | [], s => (s, [])
  | l :: rest, (st, batch, out) =>
    let fp := effFp hash l
    let l' := { l with id := fp }
    if st.seen_fingerprints.contains fp ∨ batch.contains fp ∨
        is_fuzzy_duplicate sim l' out then
      let r := dedupGo hash sim rest (st, batch, out)
      (r.1, l' :: r.2)
    else
      let r := dedupGo hash sim rest (st, fp :: batch, out ++ [l'])
      (r.1, l' :: r.2)

/-- `Deduplicator.deduplicate`: returns the instance state after the call,
the input batch as mutated by the call, and `new_listings`. -/
def deduplicate (hash : String → String) (sim : String → String → ℤ)
    (st : DedupState) (listings : List Listing) :
    DedupState × List Listing × List Listing :=
  let (res, mutated) := dedupGo hash sim listings (st, [], [])
  (res.1, mutated, res.2.2)

/-! ### Sheet row (`models/listing.py`, `Listing.to_sheet_row`) -/

/-- A Google-Sheets cell value. -/
inductive Cell
  | str : String → Cell
  | int : ℤ → Cell
  | rat : ℚ → Cell
deriving DecidableEq, Repr

/-- The `breakdown_str` built inside `to_sheet_row`. -/
def breakdown_str (bd : List (String × ℚ)) : String :=
  if bd = [] then ""
  else String.intercalate " "
    (bd.map (fun kv => pyToUpper (kv.1.take 1) ++ ":" ++ toString kv.2))

/-- `to_sheet_row`. Dates and timestamps are rendered through their
embedded representations. -/
def to_sheet_row (l : Listing) : List Cell :=
  [ .str "New",
    .rat l.rating,
    if pyTruthyInt l.price_monthly then .int (l.price_monthly.getD 0) else .str "N/A",
    .str l.neighborhood,
    .str l.borough.value,
    .str l.listing_type.value,
    .str l.apartment_details,
    .str (match l.available_from with | some d => toString d | none => ""),
    .str (match l.available_to with | some d => toString d | none => ""),
    .str (if l.is_furnished = some true then "Yes"
          else if l.is_furnished = some false then "No" else ""),
    .str l.source.value,
    .str l.source_url,
    .str (l.description.take 300),
    .str (breakdown_str l.rating_breakdown),
    .str l.contact_info,
    .str l.scraped_at,
    .str l.id ]

/-! ### Date parsing (`parsers/date_parser.py`, `parse_date`).
The four `re` patterns of the source are modelled by deterministic
scanners that reproduce the regex engine's greedy/backtracking behaviour
on them. -/

/-- `[a-z]` (the source lower-cases its input first). -/
def isLowerAZ (c : Char) : Bool := 'a' ≤ c && c ≤ 'z'

/-- Numeric value of a digit run. -/
def digitsToNat (l : List Char) : ℕ :=
  l.foldl (fun a c => 10 * a + (c.toNat - 48)) 0

/-- The next two characters spell one of the ordinal suffixes
`st` `nd` `rd` `th`. -/
def isOrdSuffix2 : List Char → Bool
  | a :: b :: _ =>
    (a = 's' ∧ b = 't') || (a = 'n' ∧ b = 'd') ||
      (a = 'r' ∧ b = 'd') || (a = 't' ∧ b = 'h')
  | _ => false

/-- `re.sub(r"(\d+)(st|nd|rd|th)", r"\1", text)`: drop an ordinal suffix
that directly follows a digit. `prevDigit` records whether the previous
kept character was a digit. -/
def subOrdAux : Bool → List Char → List Char
  | _, [] => []
  | _, [c] => [c]
  | prevDigit, c :: d :: rest2 =>
    if prevDigit ∧ isOrdSuffix2 (c :: d :: rest2) then subOrdAux false rest2
    else c :: subOrdAux c.isDigit (d :: rest2)

def subOrd (l : List Char) : List Char := subOrdAux false l

/-- `(\d{1,2})` immediately followed by the literal `sep` (greedy, with
the regex engine's backtracking: two digits are preferred). Returns the
value and the remainder after the separator. -/
def parseNum12Sep (sep : Char) (l : List Char) : Option (ℕ × List Char) :=
  match l with
  | a :: b :: c :: rest =>
    if a.isDigit && b.isDigit && c = sep then some (digitsToNat [a, b], rest)
    else if a.isDigit && b = sep then some (digitsToNat [a], c :: rest)
    else none
  | [a, b] =>
    if a.isDigit && b = sep then some (digitsToNat [a], []) else none
  | _ => none

/-- Trailing `(\d{1,2})` with nothing required after it (greedy). -/
def parseNum12Free : List Char → Option (ℕ × List Char)
  | a :: b :: rest =>
    if a.isDigit && b.isDigit then some (digitsToNat [a, b], rest)
    else if a.isDigit then some (digitsToNat [a], b :: rest)
    else none
  | [a] => if a.isDigit then some (digitsToNat [a], []) else none
  | [] => none

/-- `re.match(r"(\d{4})-(\d{1,2})-(\d{1,2})", text)`. -/
def parseIso (l : List Char) : Option (ℕ × ℕ × ℕ) :=
  match l with
  | y1 :: y2 :: y3 :: y4 :: '-' :: rest =>
    if y1.isDigit && y2.isDigit && y3.isDigit && y4.isDigit then
      match parseNum12Sep '-' rest with
      | some (m, rest2) =>
        match parseNum12Free rest2 with
        | some (d, _) => some (digitsToNat [y1, y2, y3, y4], m, d)
        | none => none
      | none => none
    else none
  | _ => none

/-- The `(?:/(\d{2,4}))?` year group of the US pattern. -/
def parseYearOpt : List Char → Option ℕ
  | '/' :: rest =>
    let ds := rest.takeWhile Char.isDigit
    if 2 ≤ ds.length then some (digitsToNat (ds.take 4)) else none
  | _ => none

/-- `re.match(r"(\d{1,2})/(\d{1,2})(?:/(\d{2,4}))?", text)`. -/
def parseUS (l : List Char) : Option (ℕ × ℕ × Option ℕ) :=
  match parseNum12Sep '/' l with
  | none => none
  | some (m, rest) =>
    match parseNum12Free rest with
    | some (d, rest2) => some (m, d, parseYearOpt rest2)
    | none => none

/-- `MONTH_MAP.get(name)`. -/
def MONTH_MAP_get (s : String) : Option ℕ :=
  if s = "jan" ∨ s = "january" then some 1
  else if s = "feb" ∨ s = "february" then some 2
  else if s = "mar" ∨ s = "march" then some 3
  else if s = "apr" ∨ s = "april" then some 4
  else if s = "may" then some 5
  else if s = "jun" ∨ s = "june" then some 6
  else if s = "jul" ∨ s = "july" then some 7
  else if s = "aug" ∨ s = "august" then some 8
  else if s = "sep" ∨ s = "sept" ∨ s = "september" then some 9
  else if s = "oct" ∨ s = "october" then some 10
  else if s = "nov" ∨ s = "november" then some 11
  else if s = "dec" ∨ s = "december" then some 12
  else none

/-- `re.match(r"([a-z]+)\s+(\d{1,2})", text)`. -/
def parseNameDay (l : List Char) : Option (String × ℕ) :=
  let letters := l.takeWhile isLowerAZ
  if letters.isEmpty then none
  else
    let rest := l.dropWhile isLowerAZ
    if (rest.takeWhile Char.isWhitespace).isEmpty then none
    else
      match parseNum12Free (rest.dropWhile Char.isWhitespace) with
      | some (d, _) => some (String.mk letters, d)
      | none => none

/-- A non-empty `[a-z]+` run at the front. -/
def letterRun (l : List Char) : Option String :=
  let xs := l.takeWhile isLowerAZ
  if xs.isEmpty then none else some (String.mk xs)

/-- `(?:of\s+)?([a-z]+)` with the engine's backtracking: prefer consuming
`of` plus whitespace, fall back to reading the letters in place. -/
def afterOf (l : List Char) : Option String :=
  match l with
  | 'o' :: 'f' :: rest =>
    if (rest.takeWhile Char.isWhitespace).isEmpty then letterRun l
    else
      match letterRun (rest.dropWhile Char.isWhitespace) with
      | some name => some name
      | none => letterRun l
  | _ => letterRun l

/-- `re.match(r"(\d{1,2})\s+(?:of\s+)?([a-z]+)", text)`. A one-digit
fallback after a two-digit read always fails (the follower would be a
digit, not whitespace), so the greedy read is deterministic. -/
def parseDayName (l : List Char) : Option (ℕ × String) :=
  let attempt : ℕ → List Char → Option (ℕ × String) := fun day rest =>
    if (rest.takeWhile Char.isWhitespace).isEmpty then none
    else
      match afterOf (rest.dropWhile Char.isWhitespace) with
      | some name => some (day, name)
      | none => none
  match l with
  | a :: b :: rest =>
    if a.isDigit && b.isDigit then attempt (digitsToNat [a, b]) rest
    else if a.isDigit then attempt (digitsToNat [a]) (b :: rest)
    else none
  | _ => none

/-- `parse_date`. Returns `Except.error ()` where the Python function
lets a `ValueError` escape, `.ok none` where it returns `None`, and
`.ok (some (y, m, d))` where it returns `date(y, m, d)`. -/
def parse_date (raw : String) (default_year : ℕ := 2026) :
    Except Unit (Option (ℕ × ℕ × ℕ)) :=
  if raw = "" then .ok none
  else
    let text := subOrd (pyToLower (pyTrim raw)).toList
    match parseIso text with
    | some (y, m, d) =>
      -- the ISO branch constructs `date(...)` with no try/except
      if isValidDate y m d then .ok (some (y, m, d)) else .error ()
    | none =>
      let usStep : Option (Option (ℕ × ℕ × ℕ)) :=
        match parseUS text with
        | some (m, d, yOpt) =>
          let y := match yOpt with
            | some ys => if ys < 100 then ys + 2000 else ys
            | none => default_year
          if 1 ≤ m ∧ m ≤ 12 ∧ 1 ≤ d ∧ d ≤ 31 then
            some (if isValidDate y m d then some (y, m, d) else none)
          else none
        | none => none
      match usStep with
      | some r => .ok r
      | none =>
        let nameStep : Option (Option (ℕ × ℕ × ℕ)) :=
          match parseNameDay text with
          | some (name, d) =>
            match MONTH_MAP_get name with
            | some m =>
              if 1 ≤ d ∧ d ≤ 31 then
                some (if isValidDate default_year m d
                      then some (default_year, m, d) else none)
              else none
            | none => none
          | none => none
        match nameStep with
        | some r => .ok r
        | none =>
          let dayNameStep : Option (Option (ℕ × ℕ × ℕ)) :=
            match parseDayName text with
            | some (d, name) =>
              match MONTH_MAP_get name with
              | some m =>
                if 1 ≤ d ∧ d ≤ 31 then
                  some (if isValidDate default_year m d
                        then some (default_year, m, d) else none)
                else none
              | none => none
            | none => none
          match dayNameStep with
          | some r => .ok r
          | none => .ok none

/-! ### Spec-side definitions, written from the specification's words, for
the refinement claims that compare spec text against the code. -/

/-- Price table exactly as the spec states it. -/
def score_price_spec (price_monthly : Option ℤ) : ℚ :=
  match price_monthly with
  | none => 4
  | some p =>
    if p ≤ 1200 then 10
    else if 1200 < p ∧ p ≤ 1500 then 9
    else if 1500 < p ∧ p ≤ 1700 then 8
    else if 1700 < p ∧ p ≤ 1850 then 7
    else if 1850 < p ∧ p ≤ 2000 then 5 + 2 * ((2000 - p : ℤ) : ℚ) / 150
    else if 2000 < p ∧ p ≤ 2200 then 2
    else 0

/-- Price compatibility as the spec claim words it, with "known"
meaning "present (not None)". -/
def price_compat_known (a b : Option ℤ) : Bool :=
  match a, b with
  | some x, some y => pyAbsI (x - y) ≤ 50
  | none, none => true
  | _, _ => false

/-- Price compatibility as the code actually behaves: "known" is Python
truthiness (present and nonzero); otherwise plain `!=` comparison. -/
def price_check_truthy (a b : Option ℤ) : Bool :=
  if pyTruthyInt a && pyTruthyInt b then pyAbsI (a.getD 0 - b.getD 0) ≤ 50
  else a == b

/-- Neighborhood compatibility: case-insensitively equal whenever both
are non-empty; an empty side passes. -/
def neighborhood_compat (a b : String) : Bool :=
  if a ≠ "" ∧ b ≠ "" then pyToLower a == pyToLower b else true

/-- Text-similarity check: both first-200-character texts non-empty and
similarity above 70. -/
def text_similarity_ok (sim : String → String → ℤ) (a b : Listing) : Bool :=
  let ta := (pyOrStr a.description a.raw_text).take 200
  let tb := (pyOrStr b.description b.raw_text).take 200
  ta ≠ "" && tb ≠ "" && decide (70 < sim ta tb)

/-- The duplicate predicate exactly as the C2 claim words it ("known"
price = not None). -/
def likely_duplicates_spec (sim : String → String → ℤ) (a b : Listing) : Bool :=
  price_compat_known a.price_monthly b.price_monthly &&
  neighborhood_compat a.neighborhood b.neighborhood &&
  (a.listing_type == b.listing_type) &&
  text_similarity_ok sim a b

/-- End bonus as the spec claims it: thresholds come from the configured
target window. -/
def end_bonus_spec (e te_min te_ideal : ℤ) : ℚ :=
  if te_ideal ≤ e then 1 else if te_min ≤ e then 0.5 else 0

/-- `score_timing` as the spec describes it, with the end-coverage bonus
governed by the configured window (min-acceptable and ideal end dates). -/
def score_timing_cfg (available_from available_to : Option ℤ)
    (target_start te_min te_ideal : ℤ) : ℚ :=
  if available_from = none ∧ available_to = none then 5
  else
    let start := available_from.getD (toOrdinal 2026 6 1)
    let e := available_to.getD (toOrdinal 2026 12 31)
    let overlap_start := pyMaxI start target_start
    let overlap_end := pyMinI e te_ideal
    if overlap_end < overlap_start then 0
    else
      let target_days := te_ideal - target_start
      if target_days = 0 then 5
      else
        let overlap_days := overlap_end - overlap_start
        let coverage_ratio : ℚ := (overlap_days : ℚ) / (target_days : ℚ)
        let score := coverage_ratio * 8 + end_bonus_spec e te_min te_ideal -
          start_penalty start target_start
        pyMax 0 (pyMin 10 score)

/-! ### Concrete records for counterexamples and witnesses -/

/-- Stand-in for the opaque hash in concrete evaluations. -/
def hashId : String → String := fun s => s

/-- Stand-in similarity scorer that rates every pair 100. -/
def sim100 : String → String → ℤ := fun _ _ => 100

def dupA : Listing :=
  { source := .CRAIGSLIST, source_url := "https://cl.example/a",
    raw_text := "sunny room near park july" }

def dupB : Listing :=
  { source := .CRAIGSLIST, source_url := "https://cl.example/b",
    raw_text := "sunny room near park july" }

def cexA : Listing :=
  { source := .FACEBOOK, price_monthly := some 0,
    raw_text := "cozy room near the park" }

def cexB : Listing :=
  { source := .FACEBOOK, price_monthly := some 30,
    raw_text := "cozy room near the park" }

def fpL1 : Listing :=
  { source := .CRAIGSLIST, source_url := "https://cl.example/z",
    raw_text := "big room", scraped_at := "2026-05-01T00:00:00" }

def fpL2 : Listing :=
  { source := .CRAIGSLIST, source_url := "https://cl.example/z",
    raw_text := "big  room", scraped_at := "2026-05-02T12:00:00", rating := 5 }

/-! ### Helper lemmas for the rounding step -/

lemma le_roundHalfEven (n : ℤ) (q : ℚ) (h : (n : ℚ) ≤ q) : n ≤ roundHalfEven q := by
  have hf : n ≤ ⌊q⌋ := Int.le_floor.mpr h
  unfold roundHalfEven
  dsimp only
  split_ifs <;> omega

lemma roundHalfEven_le (n : ℤ) (q : ℚ) (h : q ≤ (n : ℚ)) : roundHalfEven q ≤ n := by
  have hf : ⌊q⌋ ≤ n := by
    have := Int.floor_le_floor h
    simpa using this
  have hq : (⌊q⌋ : ℚ) ≤ q := Int.floor_le q
  unfold roundHalfEven
  dsimp only
  split_ifs with h1 h2 h3
  · exact hf
  · have hlt : (⌊q⌋ : ℚ) < (n : ℚ) := by linarith
    have : ⌊q⌋ < n := by exact_mod_cast hlt
    omega
  · exact hf
  · have hr : q - (⌊q⌋ : ℚ) = 1/2 := le_antisymm (not_lt.mp h2) (not_lt.mp h1)
    have hlt : (⌊q⌋ : ℚ) < (n : ℚ) := by linarith
    have : ⌊q⌋ < n := by exact_mod_cast hlt
    omega

lemma round1_bounds {q : ℚ} (h1 : 1 ≤ q) (h10 : q ≤ 10) :
    1 ≤ round1 q ∧ round1 q ≤ 10 := by
  have hlo : (10 : ℤ) ≤ roundHalfEven (10 * q) :=
    le_roundHalfEven 10 (10 * q) (by push_cast; linarith)
  have hhi : roundHalfEven (10 * q) ≤ (100 : ℤ) :=
    roundHalfEven_le 100 (10 * q) (by push_cast; linarith)
  have hlo' : (10 : ℚ) ≤ (roundHalfEven (10 * q) : ℚ) := by exact_mod_cast hlo
  have hhi' : ((roundHalfEven (10 * q) : ℚ)) ≤ 100 := by exact_mod_cast hhi
  unfold round1
  constructor <;> [linarith; linarith]

lemma le_pyMax (a b : ℚ) : a ≤ pyMax a b := by
  unfold pyMax; split_ifs with h <;> linarith [h]

lemma pyMax_le {a b c : ℚ} (h1 : a ≤ c) (h2 : b ≤ c) : pyMax a b ≤ c := by
  unfold pyMax; split_ifs <;> assumption

lemma pyMin_le_left (a b : ℚ) : pyMin a b ≤ a := by
  unfold pyMin; split_ifs with h <;> linarith [h]

/-! ### Claim theorems -/

/-- C1: for every listing record and every configuration, the composite
rating returned by `compute_rating` lies in `[1.0, 10.0]`: the weighted
sum is clamped to `[1.0, 10.0]` and then rounded to one decimal place,
so the result is never below 1.0 nor above 10.0, even for an all-empty
record. -/
theorem compute_rating_in_range (l : Listing) (s : Settings) :
    1 ≤ (compute_rating l s).1 ∧ (compute_rating l s).1 ≤ 10 := by
  unfold compute_rating
  dsimp only
  exact round1_bounds (le_pyMax _ _) (pyMax_le (by norm_num) (pyMin_le_left _ _))

lemma seg_le_seven {q : ℤ} (h : 1850 ≤ q) :
    5 + 2 * ((2000 - q : ℤ) : ℚ) / 150 ≤ 7 := by
  have h' : (1850 : ℚ) ≤ (q : ℚ) := by exact_mod_cast h
  push_cast
  linarith

lemma two_le_seg {q : ℤ} (h : q ≤ 2000) :
    2 ≤ 5 + 2 * ((2000 - q : ℤ) : ℚ) / 150 := by
  have h' : (q : ℚ) ≤ 2000 := by exact_mod_cast h
  push_cast
  linarith

lemma seg_mono {p q : ℤ} (h : p ≤ q) :
    5 + 2 * ((2000 - q : ℤ) : ℚ) / 150 ≤ 5 + 2 * ((2000 - p : ℤ) : ℚ) / 150 := by
  have h' : (p : ℚ) ≤ (q : ℚ) := by exact_mod_cast h
  push_cast
  linarith

set_option maxHeartbeats 1600000 in
/-- C5: `score_price` equals the spec's piecewise reference table on
every input, and is non-increasing over its whole integer domain. -/
theorem score_price_table_and_monotone :
    (∀ p, score_price p = score_price_spec p) ∧
    (∀ p q : ℤ, p ≤ q → score_price (some q) ≤ score_price (some p)) := by
  constructor
  · intro p
    cases p with
    | none => rfl
    | some p =>
      unfold score_price score_price_spec
      dsimp only
      split_ifs <;> first | rfl | (exfalso; omega)
  · intro p q hpq
    unfold score_price
    dsimp only
    split_ifs <;>
      first
        | (exfalso; omega)
        | (apply seg_mono; omega)
        | (apply two_le_seg; omega)
        | (exact le_trans (seg_le_seven (by omega)) (by norm_num))
        | (exact le_trans (by norm_num) (two_le_seg (by omega)))
        | norm_num

/-- Witness for C5's monotonicity hypothesis at a concrete pair. -/
theorem score_price_mono_witness :
    score_price (some 1900) ≤ score_price (some 1600) :=
  score_price_table_and_monotone.2 1600 1900 (by norm_num)

/-- C8: `score_timing` is total with result in `[0, 10]` for every
combination of optional listing dates and target dates: both listing
dates unknown gives `5.0`; an empty overlap gives `0.0`; a zero-length
target window (reached with a non-empty overlap) gives `5.0`, so the
coverage-ratio division is never evaluated with a zero denominator;
otherwise the result is `coverage_ratio * 8 + end_bonus - start_penalty`
clamped to `[0, 10]`. -/
theorem score_timing_total_in_range :
    (∀ af av ts te, 0 ≤ score_timing af av ts te ∧ score_timing af av ts te ≤ 10) ∧
    (∀ ts te : ℤ, score_timing none none ts te = 5) ∧
    (∀ af av ts te, ¬(af = none ∧ av = none) →
      pyMinI (av.getD (toOrdinal 2026 12 31)) te < pyMaxI (af.getD (toOrdinal 2026 6 1)) ts →
      score_timing af av ts te = 0) ∧
    (∀ af av ts te, ¬(af = none ∧ av = none) →
      ¬(pyMinI (av.getD (toOrdinal 2026 12 31)) te < pyMaxI (af.getD (toOrdinal 2026 6 1)) ts) →
      te - ts = 0 → score_timing af av ts te = 5) ∧
    (∀ af av ts te, ¬(af = none ∧ av = none) →
      ¬(pyMinI (av.getD (toOrdinal 2026 12 31)) te < pyMaxI (af.getD (toOrdinal 2026 6 1)) ts) →
      te - ts ≠ 0 →
      score_timing af av ts te =
        pyMax 0 (pyMin 10
          (((pyMinI (av.getD (toOrdinal 2026 12 31)) te -
              pyMaxI (af.getD (toOrdinal 2026 6 1)) ts : ℤ) : ℚ) /
              ((te - ts : ℤ) : ℚ) * 8
            + end_bonus (av.getD (toOrdinal 2026 12 31))
            - start_penalty (af.getD (toOrdinal 2026 6 1)) ts))) := by
  refine ⟨?_, ?_, ?_, ?_, ?_⟩
  · intro af av ts te
    unfold score_timing
    dsimp only
    split_ifs
    · norm_num
    · norm_num
    · norm_num
    · exact ⟨le_pyMax _ _, pyMax_le (by norm_num) (pyMin_le_left _ _)⟩
  · intro ts te
    unfold score_timing
    rw [if_pos ⟨rfl, rfl⟩]
  · intro af av ts te h1 h2
    unfold score_timing
    dsimp only
    rw [if_neg h1, if_pos h2]
  · intro af av ts te h1 h2 h3
    unfold score_timing
    dsimp only
    rw [if_neg h1, if_neg h2, if_pos h3]
  · intro af av ts te h1 h2 h3
    unfold score_timing
    dsimp only
    rw [if_neg h1, if_neg h2, if_neg h3]

/-- Witness for C8 at a concrete empty-overlap input. -/
theorem score_timing_witness :
    score_timing (some (toOrdinal 2026 10 1)) none
      (toOrdinal 2026 7 1) (toOrdinal 2026 9 30) = 0 :=
  score_timing_total_in_range.2.2.1 _ _ _ _ (by simp) (by decide)

/-- C7 counterexample: with a non-default configured window (ideal end
2026-12-31, minimum-acceptable end 2026-10-31), `score_timing`'s result
differs from the spec-worded configuration-governed bonus, because the
bonus thresholds are the hardcoded dates 2026-09-30 / 2026-08-31. -/
theorem score_timing_bonus_not_configured_cex :
    toOrdinal 2026 6 1 = 739768 ∧ toOrdinal 2026 9 30 = 739889 ∧
    toOrdinal 2026 10 31 = 739920 ∧ toOrdinal 2026 12 31 = 739981 ∧
    score_timing (some 739768) (some 739889) 739768 739981 ≠
      score_timing_cfg (some 739768) (some 739889) 739768 739920 739981 := by
  refine ⟨by decide, by decide, by decide, by decide, ?_⟩
  unfold score_timing score_timing_cfg end_bonus end_bonus_spec start_penalty pyMinI pyMaxI pyMin pyMax
  norm_num [show toOrdinal 2026 9 30 = 739889 from by decide,
    show toOrdinal 2026 8 31 = 739859 from by decide]
  norm_num [show ¬(some (739768 : ℤ) = none ∧ some (739889 : ℤ) = none) from by simp]

/-! ### Lemmas about the dedup loop -/

lemma generate_fingerprint_update_id (hash : String → String) (l : Listing) (x : String) :
    generate_fingerprint hash { l with id := x } = generate_fingerprint hash l := rfl

lemma effFp_update (hash : String → String) (l : Listing) :
    effFp hash { l with id := effFp hash l } = effFp hash l := by
  unfold effFp
  dsimp only
  simp only [generate_fingerprint_update_id]
  by_cases h : l.id = ""
  · simp only [if_pos h, ite_self]
  · simp only [if_neg h]

lemma dedupGo_nil (hash : String → String) (sim : String → String → ℤ)
    (s : DedupState × List String × List Listing) :
    dedupGo hash sim [] s = (s, []) := rfl

lemma dedupGo_cons (hash : String → String) (sim : String → String → ℤ)
    (l : Listing) (rest : List Listing) (st : DedupState)
    (batch : List String) (out : List Listing) :
    dedupGo hash sim (l :: rest) (st, batch, out) =
      if st.seen_fingerprints.contains (effFp hash l) ∨ batch.contains (effFp hash l) ∨
          is_fuzzy_duplicate sim { l with id := effFp hash l } out then
        ((dedupGo hash sim rest (st, batch, out)).1,
          { l with id := effFp hash l } :: (dedupGo hash sim rest (st, batch, out)).2)
      else
        ((dedupGo hash sim rest
            (st, effFp hash l :: batch, out ++ [{ l with id := effFp hash l }])).1,
          { l with id := effFp hash l } ::
            (dedupGo hash sim rest
              (st, effFp hash l :: batch, out ++ [{ l with id := effFp hash l }])).2) := rfl

lemma dedupGo_state (hash : String → String) (sim : String → String → ℤ) :
    ∀ (ls : List Listing) (s : DedupState × List String × List Listing),
    (dedupGo hash sim ls s).1.1 = s.1 := by
  intro ls
  induction ls with
  | nil => intro s; rfl
  | cons l rest ih =>
    rintro ⟨st, batch, out⟩
    rw [dedupGo_cons]
    split_ifs
    · exact ih (st, batch, out)
    · exact ih (st, _, _)

lemma dedupGo_mutated_fixed (hash : String → String) (sim : String → String → ℤ) :
    ∀ (ls : List Listing) (s : DedupState × List String × List Listing),
    ∀ l ∈ (dedupGo hash sim ls s).2, effFp hash l = l.id := by
  intro ls
  induction ls with
  | nil => intro s l hl; simp [dedupGo_nil] at hl
  | cons x rest ih =>
    rintro ⟨st, batch, out⟩ l hl
    rw [dedupGo_cons] at hl
    split_ifs at hl <;> rcases List.mem_cons.mp hl with h | h
    · subst h; exact effFp_update hash x
    · exact ih (st, batch, out) l h
    · subst h; exact effFp_update hash x
    · exact ih (st, _, _) l h

lemma dedupGo_all_seen (hash : String → String) (sim : String → String → ℤ) :
    ∀ (ls : List Listing) (st : DedupState) (batch : List String) (out : List Listing),
    (∀ l ∈ ls, effFp hash l ∈ st.seen_fingerprints) →
    (dedupGo hash sim ls (st, batch, out)).1.2.2 = out := by
  intro ls
  induction ls with
  | nil => intro st batch out _; rfl
  | cons l rest ih =>
    intro st batch out h
    have hl : st.seen_fingerprints.contains (effFp hash l) = true := by
      simpa using h l (List.mem_cons_self _ _)
    rw [dedupGo_cons, if_pos (Or.inl hl)]
    exact ih st batch out (fun x hx => h x (List.mem_cons_of_mem _ hx))

lemma dedupGo_replay (hash : String → String) (sim : String → String → ℤ) :
    ∀ (ls : List Listing) (s : DedupState × List String × List Listing),
    dedupGo hash sim (dedupGo hash sim ls s).2 s = dedupGo hash sim ls s := by
  intro ls
  induction ls with
  | nil => intro s; rfl
  | cons l rest ih =>
    rintro ⟨st, batch, out⟩
    rw [dedupGo_cons hash sim l rest st batch out]
    by_cases hc : st.seen_fingerprints.contains (effFp hash l) = true ∨
        batch.contains (effFp hash l) = true ∨
        is_fuzzy_duplicate sim { l with id := effFp hash l } out = true
    · rw [if_pos hc]
      dsimp only
      rw [dedupGo_cons]
      dsimp only
      simp only [effFp_update]
      rw [if_pos hc]
      rw [ih (st, batch, out)]
    · rw [if_neg hc]
      dsimp only
      rw [dedupGo_cons]
      dsimp only
      simp only [effFp_update]
      rw [if_neg hc]
      rw [ih _]

set_option maxRecDepth 16384 in
/-- C3 counterexample: on the batch `[dupA, dupB]` (distinct URLs, hence
distinct fingerprints, but fuzzy-duplicate texts) the first call emits
only `dupA`; extending the persisted seen set with the fingerprints of
the OUTPUT records and re-running the same (mutated) batch emits `dupB`
rather than the empty list, because `dupB` was dropped as a fuzzy
duplicate of `dupA` and its own fingerprint was never recorded. -/
theorem deduplicate_not_idempotent_cex :
    (deduplicate hashId sim100 ⟨[]⟩ [dupA, dupB]).2.2 =
        [{ dupA with id := "https://cl.example/a" }] ∧
    (deduplicate hashId sim100
        ⟨((deduplicate hashId sim100 ⟨[]⟩ [dupA, dupB]).2.2).map Listing.id⟩
        (deduplicate hashId sim100 ⟨[]⟩ [dupA, dupB]).2.1).2.2 =
      [{ dupB with id := "https://cl.example/b" }] := by
  constructor <;> rfl

/-- C3 amended: `deduplicate([])` is `[]`; and the second call on the
same batch returns `[]` provided the persisted seen set is extended with
the fingerprints assigned to ALL records of the batch during the first
call (the output records' fingerprints alone do not suffice, as the
counterexample shows). -/
theorem deduplicate_empty_and_all_fps_idempotent :
    (∀ (hash : String → String) (sim : String → String → ℤ) (st : DedupState),
      (deduplicate hash sim st []).2.2 = []) ∧
    (∀ (hash : String → String) (sim : String → String → ℤ)
        (st st' : DedupState) (batch : List Listing),
      (∀ l ∈ (deduplicate hash sim st batch).2.1, l.id ∈ st'.seen_fingerprints) →
      (deduplicate hash sim st' (deduplicate hash sim st batch).2.1).2.2 = []) := by
  constructor
  · intro hash sim st; rfl
  · intro hash sim st st' batch h
    have h' : ∀ l ∈ (dedupGo hash sim batch (st, [], [])).2,
        l.id ∈ st'.seen_fingerprints := fun l hl => h l hl
    unfold deduplicate
    dsimp only
    apply dedupGo_all_seen
    intro l hl
    rw [dedupGo_mutated_fixed hash sim batch (st, [], []) l hl]
    exact h' l hl

set_option maxRecDepth 16384 in
/-- Witness for the amended C3 theorem at a concrete batch. -/
theorem deduplicate_all_fps_witness :
    (deduplicate hashId sim100 ⟨["https://cl.example/a", "https://cl.example/b"]⟩
      (deduplicate hashId sim100 ⟨[]⟩ [dupA, dupB]).2.1).2.2 = [] :=
  deduplicate_empty_and_all_fps_idempotent.2 hashId sim100 ⟨[]⟩
    ⟨["https://cl.example/a", "https://cl.example/b"]⟩ [dupA, dupB] (by decide)

/-- C9: `deduplicate` never modifies the persisted seen-fingerprint set —
the instance state after any call equals the state before (only the
call-local batch set is extended) — and two successive calls on the same
instance with the same (mutated-in-place) input list return identical
output. -/
theorem deduplicate_frame_and_repeat :
    (∀ (hash : String → String) (sim : String → String → ℤ) (st : DedupState)
        (ls : List Listing), (deduplicate hash sim st ls).1 = st) ∧
    (∀ (hash : String → String) (sim : String → String → ℤ) (st : DedupState)
        (ls : List Listing),
      (deduplicate hash sim (deduplicate hash sim st ls).1
          (deduplicate hash sim st ls).2.1).2.2 =
        (deduplicate hash sim st ls).2.2) := by
  constructor
  · intro hash sim st ls
    unfold deduplicate
    dsimp only
    exact dedupGo_state hash sim ls (st, [], [])
  · intro hash sim st ls
    have hst : (deduplicate hash sim st ls).1 = st := by
      unfold deduplicate
      dsimp only
      exact dedupGo_state hash sim ls (st, [], [])
    rw [hst]
    unfold deduplicate
    dsimp only
    rw [dedupGo_replay hash sim ls (st, [], [])]

/-- C7 amended: the end-coverage bonus thresholds are the fixed dates
2026-09-30 (`+1.0`) and 2026-08-31 (`+0.5`) regardless of the configured
window; the configuration-governed reading holds exactly when the
configured window equals the defaults (ideal end 2026-09-30,
minimum-acceptable end 2026-08-31). -/
theorem score_timing_bonus_fixed_dates (af av : Option ℤ) (ts : ℤ) :
    score_timing af av ts (toOrdinal 2026 9 30) =
      score_timing_cfg af av ts (toOrdinal 2026 8 31) (toOrdinal 2026 9 30) := rfl


set_option maxRecDepth 16384 in
/-- C2 counterexample: with prices `0` and `30` (within $50 of each
other) and every other check passing, the claim's reading — a "known"
price is any present (not-None) price — classifies the pair a duplicate,
but the code returns False: Python truthiness makes a price of `0`
behave like an unknown price, and `0 != 30` fails the else-branch
comparison. -/
theorem are_likely_duplicates_known_price_cex :
    likely_duplicates_spec sim100 cexA cexB = true ∧
    are_likely_duplicates sim100 cexA cexB = false := ⟨rfl, rfl⟩

/-- C2 amended: `_are_likely_duplicates` returns True iff all four
checks hold, where "known" means truthy (present AND nonzero): both
truthy prices must lie within $50, while non-truthy prices must be
exactly equal (both None or both 0); neighborhoods case-insensitively
equal whenever both non-empty; listing types exactly equal; and both
first-200-character texts non-empty with similarity above 70. -/
theorem are_likely_duplicates_iff (sim : String → String → ℤ) (a b : Listing) :
    are_likely_duplicates sim a b = true ↔
      (price_check_truthy a.price_monthly b.price_monthly = true ∧
       neighborhood_compat a.neighborhood b.neighborhood = true ∧
       a.listing_type = b.listing_type ∧
       text_similarity_ok sim a b = true) := by
  unfold are_likely_duplicates price_check_truthy neighborhood_compat text_similarity_ok
  dsimp only
  split_ifs <;> simp_all

/-- C6: `generate_fingerprint` is determined by the record's source,
source URL, price, neighborhood, listing type and the first 50
whitespace-delimited tokens of the lower-cased raw text alone (so two
records differing only in other fields — scrape timestamp, rating,
images, id — hash identically); and off the social source with a
non-empty URL it is determined by the URL alone. -/
theorem generate_fingerprint_determined :
    (∀ (hash : String → String) (a b : Listing),
      a.source = b.source → a.source_url = b.source_url →
      a.price_monthly = b.price_monthly → a.neighborhood = b.neighborhood →
      a.listing_type = b.listing_type →
      (pySplitWs (pyToLower a.raw_text)).take 50 = (pySplitWs (pyToLower b.raw_text)).take 50 →
      generate_fingerprint hash a = generate_fingerprint hash b) ∧
    (∀ (hash : String → String) (a b : Listing),
      a.source ≠ ListingSource.FACEBOOK → b.source ≠ ListingSource.FACEBOOK →
      a.source_url ≠ "" → a.source_url = b.source_url →
      generate_fingerprint hash a = generate_fingerprint hash b) := by
  constructor
  · intro hash a b h1 h2 h3 h4 h5 h6
    unfold generate_fingerprint fingerprint_content
    dsimp only
    rw [h1, h2, h3, h4, h5, h6]
  · intro hash a b ha hb hu hab
    unfold generate_fingerprint fingerprint_content
    dsimp only
    rw [if_pos ⟨ha, hu⟩, if_pos ⟨hb, hab ▸ hu⟩, hab]

/-- Witness for C6: two records differing only in raw-text whitespace,
scrape timestamp and rating produce the same fingerprint. -/
theorem generate_fingerprint_witness :
    generate_fingerprint hashId fpL1 = generate_fingerprint hashId fpL2 :=
  generate_fingerprint_determined.1 hashId fpL1 fpL2 rfl rfl rfl rfl rfl (by decide)

/-- C10: code branching on `price_monthly` treats `0` like an absent
price: a pair with prices 0 and nonzero is never a duplicate (even
within $50); a pair with both prices 0 behaves exactly as if both were
unknown; and the sheet row renders a 0 price as "N/A". -/
theorem price_zero_treated_as_absent :
    (∀ (sim : String → String → ℤ) (a b : Listing),
      a.price_monthly = some 0 → pyTruthyInt b.price_monthly = true →
      are_likely_duplicates sim a b = false) ∧
    (∀ (sim : String → String → ℤ) (a b : Listing),
      are_likely_duplicates sim { a with price_monthly := some 0 }
          { b with price_monthly := some 0 } =
        are_likely_duplicates sim { a with price_monthly := none }
          { b with price_monthly := none }) ∧
    (∀ l : Listing, l.price_monthly = some 0 →
      (to_sheet_row l)[2]? = some (Cell.str "N/A")) := by
  refine ⟨?_, ?_, ?_⟩
  · intro sim a b ha hb
    cases hcb : b.price_monthly with
    | none => rw [hcb] at hb; simp [pyTruthyInt] at hb
    | some n =>
      rw [hcb] at hb
      have hn : ¬ n = 0 := by simpa [pyTruthyInt] using hb
      unfold are_likely_duplicates
      rw [ha, hcb]
      simp [pyTruthyInt, Ne.symm hn]
  · intro sim a b
    rfl
  · intro l hl
    unfold to_sheet_row
    rw [hl]
    rfl

/-- Witness for C10 at the concrete pair with prices 0 and 30. -/
theorem price_zero_witness :
    are_likely_duplicates sim100 cexA cexB = false :=
  price_zero_treated_as_absent.1 sim100 cexA cexB rfl rfl

set_option maxRecDepth 16384 in
/-- C4 (code bug): the ISO branch of `parse_date` constructs the date
with no try/except, so the invalid calendar date "2026-02-30" raises
`ValueError` instead of returning None, while the analogous invalid US
form "2/30" is caught and yields None. -/
theorem parse_date_iso_invalid_raises :
    parse_date "2026-02-30" = Except.error () ∧
    parse_date "2/30" = Except.ok none := ⟨rfl, rfl⟩
